import Mathlib

/-!
Relayer: parachain listener and Ethereum chain driver

A shallow embedding of

* `relayer/chain/parachain/listener.go` : `getAuxiliaryDigestItem`, `processHeader`,
  `consumeFinalizedHeaders`, `produceFinalizedHeaders`, the close-once guard used by
  `startChannelListener`;
* `relayer/chain/ethereum/chain.go` : `receiveInitParams`, `sendInitParams`, `Start`.

Conventions.  A Go `error` value is a `GoError` (only its message is observable in this code);
a nil-able `error` is `Option GoError`.  Logging is not modelled.  RPC collaborators, the SCALE
decoders of the client library and `MakeStorageKey` (defined in a file of the package that is not
part of the sources at hand) are parameters.  Every call to a collaborator is recorded in a call
log, every channel send in the state of the channel, so that "no fetch happened" and "exactly one
batch was sent" are statements about values.
-/

namespace Relayer

/-! ## Shared data -/

/-- Raw bytes. -/
abbrev Bytes := List Nat

/-- A 32-byte hash (`types.H256` / `types.Hash`), kept as its bytes. -/
abbrev H256 := List Nat

/-- A Go error; `Error` is the text returned by the method `Error()`. -/
structure GoError where
  Error : String
deriving DecidableEq, Repr

/-- The width-64 conversion `uint64(x)`. -/
def uint64 (x : Nat) : Nat := x % 2 ^ 64

/-- How a Go function body ends: it returns an error value (possibly nil), it panics, or it
blocks forever on a channel operation. -/
inductive Outcome where
  | ret (err : Option GoError)
  | panicked
  | blocked
deriving DecidableEq, Repr

/-! ## Parachain listener: data -/

namespace Parachain

/-- The type `substrate.ChannelID`, as the struct of flags the listener builds in `Start`
(`ChannelID{IsBasic: true}`, `ChannelID{IsIncentivized: true}`); `!=` compares the fields. -/
structure ChannelID where
  IsBasic : Bool
  IsIncentivized : Bool
deriving DecidableEq, Repr

/-- An entry of `types.Digest`; only the fields the listener reads. -/
structure DigestItem where
  IsOther : Bool
  AsOther : Bytes
deriving DecidableEq, Repr

/-- The payload of the commitment variant of an auxiliary digest item. -/
structure Commitment where
  ChannelID : ChannelID
  Hash : H256
deriving DecidableEq, Repr

/-- The type `chainTypes.AuxiliaryDigestItem`; only the fields the listener reads. -/
structure AuxiliaryDigestItem where
  IsCommitment : Bool
  AsCommitment : Commitment
deriving DecidableEq, Repr

/-- An element of a decoded commitment payload; not interpreted by the listener. -/
abbrev CommitmentMessage := List Nat

/-- The type `types.Header`; only the fields the listener reads. -/
structure Header where
  Number : Nat
  Digest : List DigestItem
deriving DecidableEq, Repr

/-- The type `chain.SubstrateOutboundMessage`. -/
structure SubstrateOutboundMessage where
  ChannelID : ChannelID
  BlockNumber : Nat
  Messages : List CommitmentMessage
  Commitment : H256
deriving DecidableEq, Repr

/-- The state of a non-nil Go channel of message slices: whether `close` has been performed on it
and the values sent on it so far, oldest first. -/
structure OutChan where
  closed : Bool
  sent : List (List SubstrateOutboundMessage)
deriving DecidableEq, Repr

/-- The fields of `Listener` that the code branches on: the output channel `messages`
(`none` is the nil channel) and the done flag of `messagesSync`, a `sync.Once`. -/
structure Listener where
  messages : Option OutChan
  messagesSync : Bool
deriving DecidableEq, Repr

/-- The function `NewListener`: `messagesSync` starts as the zero `sync.Once`. -/
def NewListener (messages : Option OutChan) : Listener :=
  { messages := messages, messagesSync := false }

/-- The collaborators of `processHeader`.  `LocalStorageGet` returns the Go pair
`(data, err)`; `MakeStorageKey` and the two uses of `types.DecodeFromBytes` return a value or
an error. -/
structure Deps where
  DecodeAuxiliaryDigestItem : Bytes → Except GoError AuxiliaryDigestItem
  MakeStorageKey : ChannelID → H256 → Except GoError Bytes
  LocalStorageGet : Bytes → Option Bytes × Option GoError
  DecodeMessages : Bytes → Except GoError (List CommitmentMessage)

/-! ## Parachain listener: header processing -/

/-- The function `getAuxiliaryDigestItem`: the first entry with `IsOther` decides; `ok none` is
the Go result `(nil, nil)`. -/
def getAuxiliaryDigestItem (decode : Bytes → Except GoError AuxiliaryDigestItem) :
    List DigestItem → Except GoError (Option AuxiliaryDigestItem)
  | [] => .ok none
  | digestItem :: rest =>
    if digestItem.IsOther then
      match decode digestItem.AsOther with
      | .error err => .error err
      | .ok auxDigestItem => .ok (some auxDigestItem)
    else getAuxiliaryDigestItem decode rest

/-- A send `ch <- v` whose receiver is ready: it blocks forever on the nil channel, panics on a
closed channel, and otherwise delivers the value. -/
def chanSend (ch : Option OutChan) (v : List SubstrateOutboundMessage) :
    Option OutChan × Outcome :=
  match ch with
  | none => (none, .blocked)
  | some c =>
    if c.closed then (some c, .panicked)
    else (some { c with sent := c.sent ++ [v] }, .ret none)

/-- What one call of `processHeader` did: the listener afterwards, how the call ended, and the
storage keys passed to `LocalStorageGet`. -/
structure ProcessResult where
  li : Listener
  outcome : Outcome
  fetched : List Bytes
deriving DecidableEq, Repr

/-- The method `Listener.processHeader`. -/
def processHeader (deps : Deps) (li : Listener) (channelID : ChannelID) (header : Header) :
    ProcessResult :=
  match getAuxiliaryDigestItem deps.DecodeAuxiliaryDigestItem header.Digest with
  | .error err => { li := li, outcome := .ret (some err), fetched := [] }
  | .ok none => { li := li, outcome := .ret none, fetched := [] }
  | .ok (some digestItem) =>
    if !digestItem.IsCommitment then { li := li, outcome := .ret none, fetched := [] }
    else if digestItem.AsCommitment.ChannelID ≠ channelID then
      { li := li, outcome := .ret none, fetched := [] }
    else
      match deps.MakeStorageKey digestItem.AsCommitment.ChannelID digestItem.AsCommitment.Hash with
      | .error err => { li := li, outcome := .ret (some err), fetched := [] }
      | .ok storageKey =>
        match deps.LocalStorageGet storageKey with
        | (_, some err) => { li := li, outcome := .ret (some err), fetched := [storageKey] }
        | (none, err) =>
          -- `data == nil`: the code logs and executes `return err`, with the fetch's `err`
          { li := li, outcome := .ret err, fetched := [storageKey] }
        | (some data, none) =>
          match deps.DecodeMessages data with
          | .error err => { li := li, outcome := .ret (some err), fetched := [storageKey] }
          | .ok messages =>
            let message : SubstrateOutboundMessage :=
              { ChannelID := digestItem.AsCommitment.ChannelID
                BlockNumber := header.Number
                Messages := messages
                Commitment := digestItem.AsCommitment.Hash }
            let s := chanSend li.messages [message]
            { li := { li with messages := s.1 }, outcome := s.2, fetched := [storageKey] }

/-- The batches `processHeader` put on the output stream: what the channel holds afterwards
beyond what it held before. -/
def sentBy (li : Listener) (r : ProcessResult) : List (List SubstrateOutboundMessage) :=
  match li.messages, r.li.messages with
  | some c, some c' => c'.sent.drop c.sent.length
  | _, _ => []

/-! ## Parachain listener: the consumer -/

/-- What one pass through the `select` of `consumeFinalizedHeaders` takes: the context is done
(with the value of `ctx.Err()`), a header is received, or the handoff is found closed. -/
inductive SelectEvent where
  | ctxDone (err : GoError)
  | recv (header : Header)
  | closed
deriving DecidableEq, Repr

/-- What a run of the consumer did: the listener afterwards, how it ended, the headers it took
from the handoff, and the storage keys it fetched. -/
structure ConsumeResult where
  li : Listener
  outcome : Outcome
  consumed : List Header
  fetched : List Bytes
deriving DecidableEq, Repr

/-- The `for`/`select` loop of `consumeFinalizedHeaders` over the events its `select` takes.
When the events run out the consumer is waiting in `select` (`blocked`). -/
def consumeLoop (deps : Deps) (channelID : ChannelID) :
    Listener → List SelectEvent → ConsumeResult
  | li, [] => { li := li, outcome := .blocked, consumed := [], fetched := [] }
  | li, .ctxDone err :: _ => { li := li, outcome := .ret (some err), consumed := [], fetched := [] }
  | li, .closed :: _ => { li := li, outcome := .ret none, consumed := [], fetched := [] }
  | li, .recv header :: rest =>
    let r := processHeader deps li channelID header
    match r.outcome with
    | .ret none =>
      let k := consumeLoop deps channelID r.li rest
      { li := k.li, outcome := k.outcome, consumed := header :: k.consumed,
        fetched := r.fetched ++ k.fetched }
    | out => { li := r.li, outcome := out, consumed := [header], fetched := r.fetched }

/-- The method `Listener.consumeFinalizedHeaders`. -/
def consumeFinalizedHeaders (deps : Deps) (li : Listener) (channelID : ChannelID)
    (events : List SelectEvent) : ConsumeResult :=
  if li.messages = none then
    { li := li, outcome := .ret none, consumed := [], fetched := [] }
  else consumeLoop deps channelID li events

/-- The claim-side reading of "the digest contains a Commitment entry for this channel": some
entry, at any position, is an "other" entry that decodes to a commitment for `channelID`. -/
def digestContainsCommitmentFor (decode : Bytes → Except GoError AuxiliaryDigestItem)
    (channelID : ChannelID) (digest : List DigestItem) : Bool :=
  digest.any fun d =>
    d.IsOther &&
      match decode d.AsOther with
      | .ok a => a.IsCommitment && decide (a.AsCommitment.ChannelID = channelID)
      | .error _ => false

/-! ## Parachain listener: the close-once guard -/

/-- What the tail of the consumer closure did: the listener afterwards, how the closure ended,
and how many times `close(li.messages)` was executed. -/
structure ExitResult where
  li : Listener
  outcome : Outcome
  closeCalls : Nat
deriving DecidableEq, Repr

/-- The tail of the consumer closure of `startChannelListener`, run once
`consumeFinalizedHeaders` has returned `err`: `li.messagesSync.Do(func() { close(li.messages) })`
followed by `return err`.  `sync.Once.Do` runs its argument only while the done flag is unset and
sets the flag even when the argument panics; `close` panics on the nil channel and on a closed
channel. -/
def consumerExit (li : Listener) (err : Option GoError) : ExitResult :=
  if li.messagesSync then { li := li, outcome := .ret err, closeCalls := 0 }
  else
    match li.messages with
    | none => { li := { li with messagesSync := true }, outcome := .panicked, closeCalls := 1 }
    | some c =>
      if c.closed then
        { li := { li with messagesSync := true }, outcome := .panicked, closeCalls := 1 }
      else
        { li := { messages := some { c with closed := true }, messagesSync := true },
          outcome := .ret err, closeCalls := 1 }

/-- Both consumers of one listener exit, in the given order: `basicFirst` says whether the
consumer started for `ChannelID{IsBasic: true}` exits before the one for
`ChannelID{IsIncentivized: true}`; each exits with its own result. -/
def bothConsumersExit (li : Listener) (basicFirst : Bool)
    (errBasic errIncentivized : Option GoError) : ExitResult × ExitResult :=
  let first := consumerExit li (if basicFirst then errBasic else errIncentivized)
  let second := consumerExit first.li (if basicFirst then errIncentivized else errBasic)
  (first, second)

/-! ## Parachain listener: the producer -/

/-- The value `ErrBlockNotReady`. -/
def ErrBlockNotReady : GoError := { Error := "required result to be 32 bytes, but got 0" }

/-- The value `time.Duration(6) * time.Second`, in nanoseconds. -/
def retryInterval : Nat := 6 * 1000000000

/-- A call to the chain RPC client. -/
inductive RpcCall where
  | GetFinalizedHead
  | GetHeader (hash : H256)
  | GetBlockHash (blockNumber : Nat)
deriving DecidableEq, Repr

/-- What the surroundings answer during one pass through the loop of
`produceFinalizedHeaders`: whether `ctx.Done()` is ready at the `select` (with the value of
`ctx.Err()`), the answers of the RPC client to the calls of this pass (the two `GetHeader` calls
are answered separately), and whether the consumer takes the header offered on the unbuffered
handoff. -/
structure IterEnv where
  ctxDone : Option GoError
  GetFinalizedHead : Except GoError H256
  GetHeaderOfFinalized : H256 → Except GoError Header
  GetBlockHash : Nat → Except GoError H256
  GetHeader : H256 → Except GoError Header
  receiverTakes : Bool

/-- What one pass through the loop did: the target block afterwards, the header sent on the
handoff, whether the function ended (`none`: the loop goes on), the delay passed to `sleep`,
and the RPC calls made. -/
structure IterResult where
  current : Nat
  emitted : Option Header
  ended : Option Outcome
  slept : Option Nat
  calls : List RpcCall
deriving DecidableEq, Repr

/-- One pass through the `for` loop of `produceFinalizedHeaders` with target block `current`. -/
def iteration (env : IterEnv) (current : Nat) : IterResult :=
  match env.ctxDone with
  | some ctxErr =>
    { current := current, emitted := none, ended := some (.ret (some ctxErr)), slept := none,
      calls := [] }
  | none =>
    match env.GetFinalizedHead with
    | .error err =>
      { current := current, emitted := none, ended := some (.ret (some err)), slept := none,
        calls := [.GetFinalizedHead] }
    | .ok finalizedHash =>
      match env.GetHeaderOfFinalized finalizedHash with
      | .error err =>
        { current := current, emitted := none, ended := some (.ret (some err)), slept := none,
          calls := [.GetFinalizedHead, .GetHeader finalizedHash] }
      | .ok finalizedHeader =>
        if current > uint64 finalizedHeader.Number then
          { current := current, emitted := none, ended := none, slept := some retryInterval,
            calls := [.GetFinalizedHead, .GetHeader finalizedHash] }
        else
          match env.GetBlockHash current with
          | .error err =>
            if err.Error = ErrBlockNotReady.Error then
              { current := current, emitted := none, ended := none, slept := some retryInterval,
                calls := [.GetFinalizedHead, .GetHeader finalizedHash, .GetBlockHash current] }
            else
              { current := current, emitted := none, ended := some (.ret (some err)),
                slept := none,
                calls := [.GetFinalizedHead, .GetHeader finalizedHash, .GetBlockHash current] }
          | .ok hash =>
            match env.GetHeader hash with
            | .error err =>
              { current := current, emitted := none, ended := some (.ret (some err)),
                slept := none,
                calls := [.GetFinalizedHead, .GetHeader finalizedHash, .GetBlockHash current,
                  .GetHeader hash] }
            | .ok header =>
              if env.receiverTakes then
                { current := uint64 (current + 1), emitted := some header, ended := none,
                  slept := none,
                  calls := [.GetFinalizedHead, .GetHeader finalizedHash, .GetBlockHash current,
                    .GetHeader hash] }
              else
                { current := current, emitted := none, ended := some .blocked, slept := none,
                  calls := [.GetFinalizedHead, .GetHeader finalizedHash, .GetBlockHash current,
                    .GetHeader hash] }

/-- What a run of the producer did: the target block afterwards, every header sent on the
handoff paired with the target block it was fetched for, how the function ended (`none`: it is
still looping when the answers run out), the delays slept, and the RPC calls made. -/
structure ProduceResult where
  current : Nat
  emitted : List (Nat × Header)
  ended : Option Outcome
  sleeps : List Nat
  calls : List RpcCall
deriving DecidableEq, Repr

/-- The `for` loop of `produceFinalizedHeaders`, one `IterEnv` per pass. -/
def produceLoop : Nat → List IterEnv → ProduceResult
  | current, [] =>
    { current := current, emitted := [], ended := none, sleeps := [], calls := [] }
  | current, env :: rest =>
    let r := iteration env current
    match r.ended with
    | some out =>
      { current := r.current, emitted := (r.emitted.map fun h => (current, h)).toList,
        ended := some out, sleeps := r.slept.toList, calls := r.calls }
    | none =>
      let k := produceLoop r.current rest
      { current := k.current,
        emitted := (r.emitted.map fun h => (current, h)).toList ++ k.emitted,
        ended := k.ended, sleeps := r.slept.toList ++ k.sleeps, calls := r.calls ++ k.calls }

/-- The method `Listener.produceFinalizedHeaders`; `startBlock` is a `uint32`. -/
def produceFinalizedHeaders (startBlock : Nat) (envs : List IterEnv) : ProduceResult :=
  produceLoop (uint64 startBlock) envs

/-- The target blocks of the headers a run emitted, in order of emission. -/
def ProduceResult.targets (r : ProduceResult) : List Nat := r.emitted.map Prod.fst

/-- A pass in which the context is not done, both finality queries succeed, and the finalized
head's number is strictly below `current`. -/
def IterEnv.notYetFinalized (env : IterEnv) (current : Nat) : Bool :=
  env.ctxDone.isNone &&
    match env.GetFinalizedHead with
    | .error _ => false
    | .ok finalizedHash =>
      match env.GetHeaderOfFinalized finalizedHash with
      | .error _ => false
      | .ok finalizedHeader => decide (uint64 finalizedHeader.Number < current)

/-- Block numbers of headers are `types.BlockNumber`, a 32-bit unsigned integer: every header
the finality query of this pass can return has a number below `2 ^ 32`. -/
def IterEnv.blockNumbersU32 (env : IterEnv) : Prop :=
  ∀ hash header, env.GetHeaderOfFinalized hash = .ok header → header.Number < 2 ^ 32

end Parachain

/-! ## Ethereum chain driver -/

namespace Ethereum

/-- The type `HeaderID`. -/
structure HeaderID where
  Number : Nat
  Hash : H256
deriving DecidableEq, Repr

/-- A value of the interface type `chain.Init`, by dynamic type: the nil interface, a
`*HeaderID` (possibly a nil pointer), a `*[2]uint32`, or a value of any other type. -/
inductive Init where
  | nilValue
  | headerID (p : Option HeaderID)
  | startingBlocks (p : Nat × Nat)
  | other (tag : Nat)
deriving DecidableEq, Repr

/-- The receive `<-ethInit` once it completes: `none` is a channel closed with nothing in it,
which yields the zero value of the interface. -/
def recvInit : Option Init → Init
  | none => .nilValue
  | some v => v

/-- The type assertion `v.(*HeaderID)` in its two-result form. -/
def assertHeaderID : Init → Option HeaderID × Bool
  | .headerID p => (p, true)
  | _ => (none, false)

/-- How `receiveInitParams` ends. -/
inductive ReceiveResult where
  | ok (headerID : HeaderID)
  | err (e : GoError)
  | panicked
deriving DecidableEq, Repr

/-- The method `Chain.receiveInitParams`.  The log statement after the check reads
`headerID.Number`, which panics on a nil pointer. -/
def receiveInitParams (ethInit : Option Init) : ReceiveResult :=
  match assertHeaderID (recvInit ethInit) with
  | (_, false) => .err { Error := "invalid init params" }
  | (none, true) => .panicked
  | (some headerID, true) => .ok headerID

/-- The fields of `Chain` that `Start` reads: whether `listener` and `writer` are non-nil, and
`config.DescendantsUntilFinal`. -/
structure Chain where
  listener : Bool
  writer : Bool
  DescendantsUntilFinal : Nat
deriving DecidableEq, Repr

/-- The collaborators of `Start`: the results of `conn.Connect`, of `queryStartingBlocks`, of
the receive on `ethInit`, of `listener.Start` and of `writer.Start`. -/
structure StartEnv where
  Connect : Option GoError
  queryStartingBlocks : Except GoError (Nat × Nat)
  ethInit : Option Init
  listenerStart : Nat → Nat → Option GoError
  writerStart : Option GoError

/-- What `Start` did to its surroundings, in order. -/
inductive Effect where
  | connect
  | sendInit (startingBlocks : Nat × Nat)
  | closeSubInit
  | listenerStart (descendantsFrom descendantsUntilFinal : Nat)
  | writerStart
deriving DecidableEq, Repr

/-- The method `Chain.sendInitParams`. -/
def sendInitParams (env : StartEnv) : Option GoError × List Effect :=
  match env.queryStartingBlocks with
  | .error err => (some err, [])
  | .ok startingBlocks => (none, [.sendInit startingBlocks, .closeSubInit])

/-- The method `Chain.Start`. -/
def Start (ch : Chain) (env : StartEnv) : Outcome × List Effect :=
  if ch.listener = false ∧ ch.writer = false then
    (.ret (some { Error := "Sender and/or receiver need to be set before starting chain" }), [])
  else
    match env.Connect with
    | some err => (.ret (some err), [.connect])
    | none =>
      match sendInitParams env with
      | (some err, sent) => (.ret (some err), .connect :: sent)
      | (none, sent) =>
        match receiveInitParams env.ethInit with
        | .err e => (.ret (some e), .connect :: sent)
        | .panicked => (.panicked, .connect :: sent)
        | .ok headerID =>
          let l : Option GoError × List Effect :=
            if ch.listener then
              (env.listenerStart (uint64 headerID.Number) (uint64 ch.DescendantsUntilFinal),
                [.listenerStart (uint64 headerID.Number) (uint64 ch.DescendantsUntilFinal)])
            else (none, [])
          match l with
          | (some err, started) => (.ret (some err), .connect :: sent ++ started)
          | (none, started) =>
            if ch.writer then
              match env.writerStart with
              | some err => (.ret (some err), .connect :: sent ++ started ++ [.writerStart])
              | none => (.ret none, .connect :: sent ++ started ++ [.writerStart])
            else (.ret none, .connect :: sent ++ started)

/-- Whether an effect is the start of the listener or of the writer. -/
def Effect.isStart : Effect → Bool
  | .listenerStart _ _ => true
  | .writerStart => true
  | _ => false

end Ethereum

/-! ## Sample data -/

namespace Sample

open Parachain

/-- The basic channel, as `Start` builds it. -/
def basic : ChannelID := { IsBasic := true, IsIncentivized := false }

/-- The incentivized channel, as `Start` builds it. -/
def incentivized : ChannelID := { IsBasic := false, IsIncentivized := true }

/-- A toy decoder of auxiliary digest items: `[0]` is an item that is no commitment, `[1]` a
commitment for the basic channel, `[2]` one for the incentivized channel; anything else fails. -/
def decodeAux : Bytes → Except GoError AuxiliaryDigestItem
  | [0] => .ok { IsCommitment := false,
                 AsCommitment := { ChannelID := { IsBasic := false, IsIncentivized := false },
                                   Hash := [] } }
  | [1] => .ok { IsCommitment := true, AsCommitment := { ChannelID := basic, Hash := [7] } }
  | [2] => .ok { IsCommitment := true, AsCommitment := { ChannelID := incentivized, Hash := [9] } }
  | _ => .error { Error := "cannot decode digest item" }

/-- A toy key derivation: a channel tag followed by the hash. -/
def makeKey (c : ChannelID) (h : H256) : Except GoError Bytes :=
  .ok ((if c.IsBasic then 1 else 2) :: h)

/-- A storage that holds the payload `[4, 2]` under every key. -/
def storagePresent : Bytes → Option Bytes × Option GoError := fun _ => (some [4, 2], none)

/-- A storage that answers every fetch without error and without payload. -/
def storageAbsent : Bytes → Option Bytes × Option GoError := fun _ => (none, none)

/-- A storage whose every fetch fails with an RPC error. -/
def storageFailing : Bytes → Option Bytes × Option GoError :=
  fun _ => (none, some { Error := "connection refused" })

/-- A toy payload decoder: one message per byte. -/
def decodeMessages : Bytes → Except GoError (List CommitmentMessage) :=
  fun b => .ok (b.map fun x => [x])

/-- The toy collaborators over a given storage. -/
def deps (storage : Bytes → Option Bytes × Option GoError) : Deps :=
  { DecodeAuxiliaryDigestItem := decodeAux, MakeStorageKey := makeKey,
    LocalStorageGet := storage, DecodeMessages := decodeMessages }

/-- An open, empty output channel. -/
def openChan : OutChan := { closed := false, sent := [] }

/-- A fresh listener over an open, empty output channel. -/
def openListener : Listener := NewListener (some openChan)

/-- A digest entry of the "other" kind with the given bytes. -/
def other (b : Bytes) : DigestItem := { IsOther := true, AsOther := b }

/-- A digest entry that is not of the "other" kind. -/
def sealEntry : DigestItem := { IsOther := false, AsOther := [] }

/-- Header number 12 with the given digest. -/
def header (digest : List DigestItem) : Header := { Number := 12, Digest := digest }

/-- The events the `select` of a consumer takes when the producer pushes `hs`, then closes the
handoff, and the context is never done. -/
def handoffEvents (hs : List Header) : List SelectEvent :=
  hs.map SelectEvent.recv ++ [SelectEvent.closed]

/-- A pass in which the finalized head is block `finalized`, every block hash resolves (to the
one-byte hash of its number) and every header is served. -/
def passAt (finalized : Nat) : IterEnv :=
  { ctxDone := none
    GetFinalizedHead := .ok [finalized]
    GetHeaderOfFinalized := fun _ => .ok { Number := finalized, Digest := [] }
    GetBlockHash := fun n => .ok [n]
    GetHeader := fun h => .ok { Number := h.headD 0, Digest := [] }
    receiverTakes := true }

/-- A pass like `passAt` in which resolving a block hash fails with `err`. -/
def passHashError (finalized : Nat) (err : GoError) : IterEnv :=
  { passAt finalized with GetBlockHash := fun _ => .error err }

/-- A pass like `passAt` in which fetching the header of the target block fails with `err`. -/
def passHeaderError (finalized : Nat) (err : GoError) : IterEnv :=
  { passAt finalized with GetHeader := fun _ => .error err }

/-- A pass that finds the context cancelled. -/
def passCancelled : IterEnv :=
  { passAt 0 with ctxDone := some { Error := "context canceled" } }

/-- A driver with both a listener and a writer set. -/
def chainBoth : Ethereum.Chain := { listener := true, writer := true, DescendantsUntilFinal := 35 }

/-- Surroundings of `Start` in which everything succeeds, with starting positions `[10, 20]`,
receiving `ethInit` on the initialization channel. -/
def startEnv (ethInit : Option Ethereum.Init) : Ethereum.StartEnv :=
  { Connect := none, queryStartingBlocks := .ok (10, 20), ethInit := ethInit,
    listenerStart := fun _ _ => none, writerStart := none }

end Sample

/-! ## Theorems: header processing -/

namespace Parachain

theorem getAuxiliaryDigestItem_eq_find (decode : Bytes → Except GoError AuxiliaryDigestItem)
    (digest : List DigestItem) :
    getAuxiliaryDigestItem decode digest =
      match digest.find? (fun d => d.IsOther) with
      | none => .ok none
      | some d =>
        match decode d.AsOther with
        | .error err => .error err
        | .ok a => .ok (some a) := by
  induction digest with
  | nil => rfl
  | cons d rest ih =>
    unfold getAuxiliaryDigestItem
    by_cases h : d.IsOther = true
    · simp [h]
    · simp [h, ih]

theorem getAuxiliaryDigestItem_no_other (decode : Bytes → Except GoError AuxiliaryDigestItem)
    (digest : List DigestItem) (h : ∀ d ∈ digest, d.IsOther = false) :
    getAuxiliaryDigestItem decode digest = .ok none := by
  induction digest with
  | nil => rfl
  | cons d rest ih =>
    unfold getAuxiliaryDigestItem
    have hd : d.IsOther = false := h d (List.mem_cons_self _ _)
    simp only [hd, Bool.false_eq_true, if_false]
    exact ih fun x hx => h x (List.mem_cons_of_mem _ hx)

theorem sentBy_same (li : Listener) (out : Outcome) (fetched : List Bytes) :
    sentBy li { li := li, outcome := out, fetched := fetched } = [] := by
  unfold sentBy
  cases h : li.messages <;> simp

theorem processHeader_skip_of_not_matching (deps : Deps) (li : Listener) (channelID : ChannelID)
    (header : Header) (item : AuxiliaryDigestItem)
    (haux : getAuxiliaryDigestItem deps.DecodeAuxiliaryDigestItem header.Digest = .ok (some item))
    (h : item.IsCommitment = false ∨ item.AsCommitment.ChannelID ≠ channelID) :
    processHeader deps li channelID header = { li := li, outcome := .ret none, fetched := [] } := by
  unfold processHeader
  rw [haux]
  rcases h with h | h
  · simp [h]
  · by_cases hc : item.IsCommitment = true
    · simp [hc, h]
    · simp [hc]

theorem processHeader_of_payload (deps : Deps) (li : Listener)
    (channelID : ChannelID) (header : Header) (item : AuxiliaryDigestItem) (storageKey : Bytes)
    (data : Bytes) (ms : List CommitmentMessage) (c : OutChan)
    (haux : getAuxiliaryDigestItem deps.DecodeAuxiliaryDigestItem header.Digest = .ok (some item))
    (hc : item.IsCommitment = true) (hch : item.AsCommitment.ChannelID = channelID)
    (hkey : deps.MakeStorageKey channelID item.AsCommitment.Hash = .ok storageKey)
    (hget : deps.LocalStorageGet storageKey = (some data, none))
    (hdec : deps.DecodeMessages data = .ok ms)
    (hopen : li.messages = some c) (hnc : c.closed = false) :
    processHeader deps li channelID header =
      { li := { messages := some { closed := false,
                                   sent := c.sent ++ [[{ ChannelID := channelID,
                                                         BlockNumber := header.Number,
                                                         Messages := ms,
                                                         Commitment := item.AsCommitment.Hash }]] },
                messagesSync := li.messagesSync },
        outcome := .ret none, fetched := [storageKey] } := by
  unfold processHeader
  rw [haux]
  simp [hc, hch, hkey, hget, hdec, chanSend, hopen, hnc]

/-- C1 (as the code behaves): when the auxiliary digest item is a commitment for the listener's
channel and the storage fetch for the derived key answers without error and without payload,
`processHeader` returns the nil error after the one fetch, and sends nothing. -/
theorem processHeader_absent_payload_returns_nil (deps : Deps) (li : Listener)
    (channelID : ChannelID) (header : Header) (item : AuxiliaryDigestItem) (storageKey : Bytes)
    (haux : getAuxiliaryDigestItem deps.DecodeAuxiliaryDigestItem header.Digest = .ok (some item))
    (hc : item.IsCommitment = true) (hch : item.AsCommitment.ChannelID = channelID)
    (hkey : deps.MakeStorageKey channelID item.AsCommitment.Hash = .ok storageKey)
    (hget : deps.LocalStorageGet storageKey = (none, none)) :
    processHeader deps li channelID header =
      { li := li, outcome := .ret none, fetched := [storageKey] } := by
  unfold processHeader
  rw [haux]
  simp [hc, hch, hkey, hget]

theorem processHeader_absent_payload_returns_nil_witness :
    processHeader (Sample.deps Sample.storageAbsent) Sample.openListener Sample.basic
        (Sample.header [Sample.sealEntry, Sample.other [1]]) =
      { li := Sample.openListener, outcome := .ret none, fetched := [[1, 7]] } :=
  processHeader_absent_payload_returns_nil (Sample.deps Sample.storageAbsent) Sample.openListener
    Sample.basic (Sample.header [Sample.sealEntry, Sample.other [1]])
    { IsCommitment := true, AsCommitment := { ChannelID := Sample.basic, Hash := [7] } } [1, 7]
    rfl rfl rfl rfl rfl

/-- C2: when the auxiliary digest item is a commitment for the listener's own channel, the
storage fetch returns a payload and the payload decodes to `ms`, then `processHeader`, run over
an open output stream, returns the nil error and sends exactly one batch, made of the one message
with `Messages = ms`, `Commitment` the digest item's hash, `ChannelID` the listener's channel and
`BlockNumber` the header's number. -/
theorem processHeader_matching_commitment_sends_one_batch (deps : Deps) (li : Listener)
    (channelID : ChannelID) (header : Header) (item : AuxiliaryDigestItem) (storageKey : Bytes)
    (data : Bytes) (ms : List CommitmentMessage) (c : OutChan)
    (haux : getAuxiliaryDigestItem deps.DecodeAuxiliaryDigestItem header.Digest = .ok (some item))
    (hc : item.IsCommitment = true) (hch : item.AsCommitment.ChannelID = channelID)
    (hkey : deps.MakeStorageKey channelID item.AsCommitment.Hash = .ok storageKey)
    (hget : deps.LocalStorageGet storageKey = (some data, none))
    (hdec : deps.DecodeMessages data = .ok ms)
    (hopen : li.messages = some c) (hnc : c.closed = false) :
    (processHeader deps li channelID header).outcome = .ret none ∧
      sentBy li (processHeader deps li channelID header) =
        [[{ ChannelID := channelID, BlockNumber := header.Number, Messages := ms,
            Commitment := item.AsCommitment.Hash }]] ∧
      (processHeader deps li channelID header).li.messages =
        some { closed := false,
               sent := c.sent ++ [[{ ChannelID := channelID, BlockNumber := header.Number,
                                     Messages := ms, Commitment := item.AsCommitment.Hash }]] } ∧
      (processHeader deps li channelID header).fetched = [storageKey] := by
  rw [processHeader_of_payload deps li channelID header item storageKey data ms c haux hc hch
    hkey hget hdec hopen hnc]
  simp [sentBy, hopen]

theorem processHeader_matching_commitment_sends_one_batch_witness :
    (processHeader (Sample.deps Sample.storagePresent) Sample.openListener Sample.basic
        (Sample.header [Sample.sealEntry, Sample.other [1]])).outcome = .ret none ∧
      sentBy Sample.openListener
          (processHeader (Sample.deps Sample.storagePresent) Sample.openListener Sample.basic
            (Sample.header [Sample.sealEntry, Sample.other [1]])) =
        [[{ ChannelID := Sample.basic, BlockNumber := 12, Messages := [[4], [2]],
            Commitment := [7] }]] := by
  have h := processHeader_matching_commitment_sends_one_batch (Sample.deps Sample.storagePresent)
    Sample.openListener Sample.basic (Sample.header [Sample.sealEntry, Sample.other [1]])
    { IsCommitment := true, AsCommitment := { ChannelID := Sample.basic, Hash := [7] } } [1, 7]
    [4, 2] [[4], [2]] Sample.openChan rfl rfl rfl rfl rfl rfl rfl rfl
  exact ⟨h.1, h.2.1⟩

/-- C3: if the digest has no "other" entry, or the auxiliary digest item is not a commitment, or
it is a commitment for a channel other than the listener's, then `processHeader` returns the nil
error, leaves the listener (and so its output stream) as it was, sends nothing and fetches
nothing from off-chain storage. -/
theorem processHeader_skips_without_matching_commitment (deps : Deps) (li : Listener)
    (channelID : ChannelID) (header : Header)
    (h : (∀ d ∈ header.Digest, d.IsOther = false) ∨
      ∃ item, getAuxiliaryDigestItem deps.DecodeAuxiliaryDigestItem header.Digest
            = .ok (some item) ∧
          (item.IsCommitment = false ∨
            (item.IsCommitment = true ∧ item.AsCommitment.ChannelID ≠ channelID))) :
    (processHeader deps li channelID header).outcome = .ret none ∧
      (processHeader deps li channelID header).li = li ∧
      sentBy li (processHeader deps li channelID header) = [] ∧
      (processHeader deps li channelID header).fetched = [] := by
  have key : processHeader deps li channelID header =
      { li := li, outcome := .ret none, fetched := [] } := by
    rcases h with h | ⟨item, haux, h⟩
    · unfold processHeader
      rw [getAuxiliaryDigestItem_no_other _ _ h]
    · exact processHeader_skip_of_not_matching deps li channelID header item haux
        (h.imp id fun h => h.2)
  rw [key]
  exact ⟨rfl, rfl, sentBy_same _ _ _, rfl⟩

theorem processHeader_skips_without_matching_commitment_witness :
    ((processHeader (Sample.deps Sample.storagePresent) Sample.openListener Sample.basic
        (Sample.header [Sample.sealEntry])).outcome = .ret none ∧
      (processHeader (Sample.deps Sample.storagePresent) Sample.openListener Sample.basic
        (Sample.header [Sample.sealEntry])).fetched = []) ∧
    ((processHeader (Sample.deps Sample.storagePresent) Sample.openListener Sample.basic
        (Sample.header [Sample.other [0]])).outcome = .ret none ∧
      (processHeader (Sample.deps Sample.storagePresent) Sample.openListener Sample.basic
        (Sample.header [Sample.other [0]])).fetched = []) ∧
    ((processHeader (Sample.deps Sample.storagePresent) Sample.openListener Sample.basic
        (Sample.header [Sample.other [2]])).outcome = .ret none ∧
      (processHeader (Sample.deps Sample.storagePresent) Sample.openListener Sample.basic
        (Sample.header [Sample.other [2]])).fetched = []) := by
  have h1 := processHeader_skips_without_matching_commitment (Sample.deps Sample.storagePresent)
    Sample.openListener Sample.basic (Sample.header [Sample.sealEntry]) (Or.inl (by decide))
  have h2 := processHeader_skips_without_matching_commitment (Sample.deps Sample.storagePresent)
    Sample.openListener Sample.basic (Sample.header [Sample.other [0]])
    (Or.inr ⟨_, rfl, Or.inl rfl⟩)
  have h3 := processHeader_skips_without_matching_commitment (Sample.deps Sample.storagePresent)
    Sample.openListener Sample.basic (Sample.header [Sample.other [2]])
    (Or.inr ⟨_, rfl, Or.inr ⟨rfl, by decide⟩⟩)
  exact ⟨⟨h1.1, h1.2.2.2⟩, ⟨h2.1, h2.2.2.2⟩, ⟨h3.1, h3.2.2.2⟩⟩

/-- C4 (the claim as stated fails): over an open output stream and a storage that holds the
payload, a digest whose second "other" entry is a commitment for the listener's channel, behind a
first "other" entry that is no commitment, yields no batch; and a digest whose only "other" entry
is such a commitment yields no batch when the storage fetch fails. -/
theorem processHeader_emits_iff_digest_contains_fails :
    ¬ (sentBy Sample.openListener
          (processHeader (Sample.deps Sample.storagePresent) Sample.openListener Sample.basic
            (Sample.header [Sample.other [0], Sample.other [1]])) ≠ [] ↔
        digestContainsCommitmentFor Sample.decodeAux Sample.basic
          (Sample.header [Sample.other [0], Sample.other [1]]).Digest = true) ∧
    ¬ (sentBy Sample.openListener
          (processHeader (Sample.deps Sample.storageFailing) Sample.openListener Sample.basic
            (Sample.header [Sample.other [1]])) ≠ [] ↔
        digestContainsCommitmentFor Sample.decodeAux Sample.basic
          (Sample.header [Sample.other [1]]).Digest = true) := by
  constructor
  · intro h
    exact h.2 (by decide) (by decide)
  · intro h
    exact h.2 (by decide) (by decide)

/-- C4 (amended): over an open output stream, `processHeader` emits a batch if and only if the
first "other" entry of the digest decodes to a commitment whose channel is the listener's own,
the storage key is derived, the storage fetch succeeds with a payload, and the payload
decodes. -/
theorem processHeader_emits_iff_first_other_matches (deps : Deps) (li : Listener)
    (channelID : ChannelID) (header : Header) (c : OutChan)
    (hopen : li.messages = some c) (hnc : c.closed = false) :
    sentBy li (processHeader deps li channelID header) ≠ [] ↔
      ∃ d item storageKey data ms,
        header.Digest.find? (fun d => d.IsOther) = some d ∧
        deps.DecodeAuxiliaryDigestItem d.AsOther = .ok item ∧
        item.IsCommitment = true ∧ item.AsCommitment.ChannelID = channelID ∧
        deps.MakeStorageKey channelID item.AsCommitment.Hash = .ok storageKey ∧
        deps.LocalStorageGet storageKey = (some data, none) ∧
        deps.DecodeMessages data = .ok ms := by
  constructor
  · intro hne
    cases hf : header.Digest.find? (fun d => d.IsOther) with
    | none =>
      exfalso; apply hne
      unfold processHeader
      rw [getAuxiliaryDigestItem_eq_find, hf]
      simp [sentBy_same]
    | some d =>
      cases hd : deps.DecodeAuxiliaryDigestItem d.AsOther with
      | error e =>
        exfalso; apply hne
        unfold processHeader
        rw [getAuxiliaryDigestItem_eq_find, hf]
        simp [hd, sentBy_same]
      | ok item =>
        have haux : getAuxiliaryDigestItem deps.DecodeAuxiliaryDigestItem header.Digest
            = .ok (some item) := by
          rw [getAuxiliaryDigestItem_eq_find, hf]
          simp [hd]
        by_cases hc : item.IsCommitment = true
        swap
        · exfalso; apply hne
          rw [processHeader_skip_of_not_matching deps li channelID header item haux
            (Or.inl (by simpa using hc))]
          exact sentBy_same _ _ _
        by_cases hch : item.AsCommitment.ChannelID = channelID
        swap
        · exfalso; apply hne
          rw [processHeader_skip_of_not_matching deps li channelID header item haux (Or.inr hch)]
          exact sentBy_same _ _ _
        cases hkey : deps.MakeStorageKey channelID item.AsCommitment.Hash with
        | error e =>
          exfalso; apply hne
          unfold processHeader
          rw [haux]
          simp [hc, hch, hkey, sentBy_same]
        | ok storageKey =>
          rcases hget : deps.LocalStorageGet storageKey with ⟨data, err⟩
          cases err with
          | some e =>
            exfalso; apply hne
            unfold processHeader
            rw [haux]
            simp [hc, hch, hkey, hget, sentBy_same]
          | none =>
            cases data with
            | none =>
              exfalso; apply hne
              unfold processHeader
              rw [haux]
              simp [hc, hch, hkey, hget, sentBy_same]
            | some data =>
              cases hdec : deps.DecodeMessages data with
              | error e =>
                exfalso; apply hne
                unfold processHeader
                rw [haux]
                simp [hc, hch, hkey, hget, hdec, sentBy_same]
              | ok ms => exact ⟨d, item, storageKey, data, ms, rfl, hd, hc, hch, hkey, hget, hdec⟩
  · rintro ⟨d, item, storageKey, data, ms, hf, hd, hc, hch, hkey, hget, hdec⟩
    have haux : getAuxiliaryDigestItem deps.DecodeAuxiliaryDigestItem header.Digest
        = .ok (some item) := by
      rw [getAuxiliaryDigestItem_eq_find, hf]
      simp [hd]
    rw [processHeader_of_payload deps li channelID header item storageKey data ms c haux hc hch
      hkey hget hdec hopen hnc]
    simp [sentBy, hopen]

theorem processHeader_emits_iff_first_other_matches_witness :
    sentBy Sample.openListener
        (processHeader (Sample.deps Sample.storagePresent) Sample.openListener Sample.basic
          (Sample.header [Sample.sealEntry, Sample.other [1], Sample.other [0]])) ≠ [] :=
  (processHeader_emits_iff_first_other_matches (Sample.deps Sample.storagePresent)
    Sample.openListener Sample.basic
    (Sample.header [Sample.sealEntry, Sample.other [1], Sample.other [0]]) Sample.openChan
    rfl rfl).2 ⟨Sample.other [1], _, [1, 7], [4, 2], [[4], [2]], rfl, rfl, rfl, rfl, rfl, rfl, rfl⟩

/-! ## Theorems: the consumer and the close-once guard -/

/-- C10 (the claim as stated fails): with the nil output stream, the consumer takes none of the
two headers the producer pushes before closing the handoff, and it has already returned success
when the producer has neither pushed nor closed anything. -/
theorem consumeFinalizedHeaders_nil_stream_drain_fails :
    (consumeFinalizedHeaders (Sample.deps Sample.storagePresent) (NewListener none) Sample.basic
        (Sample.handoffEvents [Sample.header [], Sample.header [Sample.other [1]]])).consumed
      ≠ [Sample.header [], Sample.header [Sample.other [1]]] ∧
    (consumeFinalizedHeaders (Sample.deps Sample.storagePresent) (NewListener none) Sample.basic
        []).outcome = .ret none := by
  constructor
  · decide
  · decide

/-- C10 (amended): with the nil output stream, `consumeFinalizedHeaders` returns success at
once, whatever the producer pushes and whether or not it has closed the handoff: it takes no
header, emits no batch (the listener is unchanged) and fetches nothing. -/
theorem consumeFinalizedHeaders_nil_stream_returns_at_once (deps : Deps) (li : Listener)
    (channelID : ChannelID) (events : List SelectEvent) (hnil : li.messages = none) :
    consumeFinalizedHeaders deps li channelID events =
      { li := li, outcome := .ret none, consumed := [], fetched := [] } := by
  unfold consumeFinalizedHeaders
  simp [hnil]

theorem consumeFinalizedHeaders_nil_stream_returns_at_once_witness :
    consumeFinalizedHeaders (Sample.deps Sample.storagePresent) (NewListener none) Sample.basic
        (Sample.handoffEvents [Sample.header [Sample.other [1]]]) =
      { li := NewListener none, outcome := .ret none, consumed := [], fetched := [] } :=
  consumeFinalizedHeaders_nil_stream_returns_at_once (Sample.deps Sample.storagePresent)
    (NewListener none) Sample.basic (Sample.handoffEvents [Sample.header [Sample.other [1]]]) rfl

/-- C7: over an output stream that is present and still open when the first consumer exits,
for either order of exit of the basic and the incentivized consumer and whatever each returns,
`close` is executed exactly once: the first exit executes it and leaves the stream closed, the
second exit executes nothing and leaves the listener unchanged, and each consumer returns its
own result. -/
theorem output_stream_closed_exactly_once (c : OutChan) (hopen : c.closed = false)
    (basicFirst : Bool) (errBasic errIncentivized : Option GoError) :
    (bothConsumersExit (NewListener (some c)) basicFirst errBasic errIncentivized).1.closeCalls
        = 1 ∧
      (bothConsumersExit (NewListener (some c)) basicFirst errBasic errIncentivized).2.closeCalls
        = 0 ∧
      (bothConsumersExit (NewListener (some c)) basicFirst errBasic errIncentivized).1.li =
        { messages := some { closed := true, sent := c.sent }, messagesSync := true } ∧
      (bothConsumersExit (NewListener (some c)) basicFirst errBasic errIncentivized).2.li =
        (bothConsumersExit (NewListener (some c)) basicFirst errBasic errIncentivized).1.li ∧
      (bothConsumersExit (NewListener (some c)) basicFirst errBasic errIncentivized).1.outcome =
        .ret (if basicFirst then errBasic else errIncentivized) ∧
      (bothConsumersExit (NewListener (some c)) basicFirst errBasic errIncentivized).2.outcome =
        .ret (if basicFirst then errIncentivized else errBasic) := by
  simp [bothConsumersExit, consumerExit, NewListener, hopen]

theorem output_stream_closed_exactly_once_witness :
    (bothConsumersExit (NewListener (some Sample.openChan)) false none
        (some { Error := "decode" })).1.closeCalls = 1 ∧
      (bothConsumersExit (NewListener (some Sample.openChan)) false none
        (some { Error := "decode" })).2.closeCalls = 0 :=
  have h := output_stream_closed_exactly_once Sample.openChan rfl false none
    (some { Error := "decode" })
  ⟨h.1, h.2.1⟩

/-! ## Theorems: the producer -/

theorem uint64_succ_of_le_u32 (current n : Nat) (hn : n < 2 ^ 32)
    (hle : ¬ current > uint64 n) : uint64 (current + 1) = current + 1 := by
  unfold uint64 at *
  have h1 : n % 2 ^ 64 ≤ n := Nat.mod_le _ _
  apply Nat.mod_eq_of_lt
  have h2 : (2 : Nat) ^ 32 < 2 ^ 64 := by norm_num
  omega

theorem iteration_emits_or_keeps (env : IterEnv) (current : Nat) (hwf : env.blockNumbersU32) :
    ((iteration env current).emitted = none ∧
        ((iteration env current).ended = none → (iteration env current).current = current)) ∨
      ∃ h, (iteration env current).emitted = some h ∧ (iteration env current).ended = none ∧
        (iteration env current).current = current + 1 := by
  unfold iteration
  cases hctx : env.ctxDone with
  | some e => simp
  | none =>
    cases hfh : env.GetFinalizedHead with
    | error e => simp
    | ok fh =>
      cases hhdr : env.GetHeaderOfFinalized fh with
      | error e => simp [hhdr]
      | ok fhdr =>
        by_cases hgt : current > uint64 fhdr.Number
        · simp [hhdr, hgt]
        · cases hbh : env.GetBlockHash current with
          | error e =>
            by_cases hm : e.Error = ErrBlockNotReady.Error
            · simp [hhdr, hgt, hbh, hm]
            · simp [hhdr, hgt, hbh, hm]
          | ok hash =>
            cases hh : env.GetHeader hash with
            | error e => simp [hhdr, hgt, hbh, hh]
            | ok header =>
              by_cases hr : env.receiverTakes = true
              · right
                have := uint64_succ_of_le_u32 current fhdr.Number (hwf fh fhdr hhdr) hgt
                simp [hhdr, hgt, hbh, hh, hr, this]
              · simp [hhdr, hgt, hbh, hh, hr]

theorem produceLoop_cons_ended (env : IterEnv) (rest : List IterEnv) (current : Nat)
    (out : Outcome) (h : (iteration env current).ended = some out) :
    produceLoop current (env :: rest) =
      { current := (iteration env current).current,
        emitted := ((iteration env current).emitted.map fun h => (current, h)).toList,
        ended := some out, sleeps := (iteration env current).slept.toList,
        calls := (iteration env current).calls } := by
  simp only [produceLoop, h]

theorem produceLoop_cons_next (env : IterEnv) (rest : List IterEnv) (current : Nat)
    (h : (iteration env current).ended = none) :
    produceLoop current (env :: rest) =
      { current := (produceLoop (iteration env current).current rest).current,
        emitted := ((iteration env current).emitted.map fun h => (current, h)).toList ++
          (produceLoop (iteration env current).current rest).emitted,
        ended := (produceLoop (iteration env current).current rest).ended,
        sleeps := (iteration env current).slept.toList ++
          (produceLoop (iteration env current).current rest).sleeps,
        calls := (iteration env current).calls ++
          (produceLoop (iteration env current).current rest).calls } := by
  simp only [produceLoop, h]

theorem produceLoop_targets (envs : List IterEnv) :
    ∀ current : Nat, (∀ env ∈ envs, env.blockNumbersU32) →
      (produceLoop current envs).targets =
        List.range' current (produceLoop current envs).targets.length := by
  induction envs with
  | nil => intro current _; simp [produceLoop, ProduceResult.targets]
  | cons env rest ih =>
    intro current hwf
    have hrest : ∀ e ∈ rest, e.blockNumbersU32 := fun e he => hwf e (List.mem_cons_of_mem _ he)
    have hit := iteration_emits_or_keeps env current (hwf env (List.mem_cons_self _ _))
    cases hend : (iteration env current).ended with
    | some out =>
      rw [produceLoop_cons_ended env rest current out hend]
      rcases hit with ⟨hem, _⟩ | ⟨h, _, hnone, _⟩
      · simp [ProduceResult.targets, hem]
      · rw [hend] at hnone; cases hnone
    | none =>
      rw [produceLoop_cons_next env rest current hend]
      rcases hit with ⟨hem, hcur⟩ | ⟨h, hem, _, hcur⟩
      · have ih1 := ih current hrest
        simp only [ProduceResult.targets] at ih1 ⊢
        simp only [hem, hcur hend, Option.map_none', Option.toList_none, List.nil_append]
        exact ih1
      · have ih1 := ih (current + 1) hrest
        simp only [ProduceResult.targets] at ih1 ⊢
        simp only [hem, hcur, Option.map_some', Option.toList_some, List.singleton_append,
          List.map_cons, List.length_cons, List.range'_succ]
        rw [← ih1]

theorem iteration_notYetFinalized (env : IterEnv) (current : Nat)
    (h : env.notYetFinalized current = true) :
    ∃ finalizedHash, iteration env current =
      { current := current, emitted := none, ended := none, slept := some retryInterval,
        calls := [.GetFinalizedHead, .GetHeader finalizedHash] } := by
  unfold IterEnv.notYetFinalized at h
  unfold iteration
  cases hctx : env.ctxDone with
  | some e => simp [hctx] at h
  | none =>
    cases hfh : env.GetFinalizedHead with
    | error e => simp [hfh] at h
    | ok fh =>
      cases hhdr : env.GetHeaderOfFinalized fh with
      | error e => simp [hfh, hhdr] at h
      | ok fhdr =>
        simp only [hctx, hfh, hhdr, Option.isNone_none, Bool.true_and, decide_eq_true_eq] at h
        exact ⟨fh, by simp [hhdr, h]⟩

theorem produceLoop_notYetFinalized (envs : List IterEnv) (current : Nat)
    (h : ∀ env ∈ envs, env.notYetFinalized current = true) (rest : List IterEnv) :
    (produceLoop current (envs ++ rest)).emitted = (produceLoop current rest).emitted ∧
      (produceLoop current (envs ++ rest)).ended = (produceLoop current rest).ended ∧
      (produceLoop current (envs ++ rest)).current = (produceLoop current rest).current ∧
      (produceLoop current (envs ++ rest)).sleeps =
        List.replicate envs.length retryInterval ++ (produceLoop current rest).sleeps ∧
      ∀ n, RpcCall.GetBlockHash n ∈ (produceLoop current (envs ++ rest)).calls →
        RpcCall.GetBlockHash n ∈ (produceLoop current rest).calls := by
  induction envs with
  | nil => simp
  | cons env more ih =>
    have ih1 := ih fun e he => h e (List.mem_cons_of_mem _ he)
    obtain ⟨fh, hit⟩ := iteration_notYetFinalized env current (h env (List.mem_cons_self _ _))
    have hend : (iteration env current).ended = none := by rw [hit]
    simp only [List.cons_append]
    rw [produceLoop_cons_next env (more ++ rest) current hend]
    simp only [hit, Option.map_none', Option.toList_none, List.nil_append, Option.toList_some,
      List.length_cons, List.replicate_succ, List.cons_append, List.singleton_append]
    refine ⟨ih1.1, ih1.2.1, ih1.2.2.1, by rw [ih1.2.2.2.1], ?_⟩
    intro n hn
    simp only [List.mem_cons, reduceCtorEq, false_or] at hn
    exact ih1.2.2.2.2 n hn

theorem passAt_blockNumbersU32 (finalized : Nat) (h : finalized < 2 ^ 32) :
    (Sample.passAt finalized).blockNumbersU32 := by
  intro hash header hh
  simp only [Sample.passAt, Except.ok.injEq] at hh
  rw [← hh]
  exact h

theorem sampleRun_blockNumbersU32 :
    ∀ env ∈ [Sample.passAt 2, Sample.passAt 4, Sample.passAt 4,
        Sample.passHashError 9 ErrBlockNotReady, Sample.passAt 9, Sample.passCancelled],
      env.blockNumbersU32 := by
  intro env henv
  simp only [List.mem_cons, List.mem_singleton, List.not_mem_nil, or_false] at henv
  rcases henv with h | h | h | h | h | h <;> subst h
  · exact passAt_blockNumbersU32 2 (by norm_num)
  · exact passAt_blockNumbersU32 4 (by norm_num)
  · exact passAt_blockNumbersU32 4 (by norm_num)
  · exact passAt_blockNumbersU32 9 (by norm_num)
  · exact passAt_blockNumbersU32 9 (by norm_num)
  · exact passAt_blockNumbersU32 0 (by norm_num)

/-- C5: for every starting block `s` (a `uint32`) and every sequence of chain responses, the
target blocks for which `produceFinalizedHeaders` emits a header are exactly
`s, s+1, s+2, ...`: the `k`-th emission is for target `s + k`, so the targets are strictly
increasing, without gap or repeat, and never below `s`. -/
theorem produceFinalizedHeaders_targets_consecutive (s : Nat) (envs : List IterEnv)
    (hs : s < 2 ^ 32) (hwf : ∀ env ∈ envs, env.blockNumbersU32) :
    (produceFinalizedHeaders s envs).targets =
        List.range' s (produceFinalizedHeaders s envs).targets.length ∧
      (∀ k, k < (produceFinalizedHeaders s envs).targets.length →
        (produceFinalizedHeaders s envs).targets[k]? = some (s + k)) ∧
      List.Pairwise (fun a b => a < b) (produceFinalizedHeaders s envs).targets ∧
      ∀ t ∈ (produceFinalizedHeaders s envs).targets, s ≤ t := by
  have hs64 : uint64 s = s := by
    unfold uint64
    apply Nat.mod_eq_of_lt
    have h2 : (2 : Nat) ^ 32 < 2 ^ 64 := by norm_num
    omega
  have h := produceLoop_targets envs (uint64 s) hwf
  rw [hs64] at h
  unfold produceFinalizedHeaders
  rw [hs64]
  generalize (produceLoop s envs).targets = T at h
  generalize hn : T.length = n at h
  subst h
  refine ⟨rfl, ?_, ?_, ?_⟩
  · intro k hk
    rw [List.getElem?_range']
    · simp
    · exact hk
  · exact List.pairwise_lt_range' s n
  · intro t ht
    exact (List.mem_range'_1.mp ht).1

theorem produceFinalizedHeaders_targets_consecutive_witness :
    (produceFinalizedHeaders 3 [Sample.passAt 2, Sample.passAt 4, Sample.passAt 4,
        Sample.passHashError 9 ErrBlockNotReady, Sample.passAt 9, Sample.passCancelled]).targets
      = [3, 4, 5] := by
  have h := (produceFinalizedHeaders_targets_consecutive 3 [Sample.passAt 2, Sample.passAt 4,
    Sample.passAt 4, Sample.passHashError 9 ErrBlockNotReady, Sample.passAt 9,
    Sample.passCancelled] (by norm_num) sampleRun_blockNumbersU32).1
  have hlen : (produceFinalizedHeaders 3 [Sample.passAt 2, Sample.passAt 4, Sample.passAt 4,
      Sample.passHashError 9 ErrBlockNotReady, Sample.passAt 9,
      Sample.passCancelled]).targets.length = 3 := by decide
  rw [hlen] at h
  exact h

/-- C6: a pass that is not cancelled and finds the finalized head strictly below the target
emits no header, does not end the producer, asks for no block hash, sleeps the retry interval
and leaves the target unchanged; hence a run of such passes emits nothing, returns nothing and
keeps the target, and nothing has been emitted when a following pass finds the context done and
the producer returns `ctx.Err()`. -/
theorem produceFinalizedHeaders_retries_while_not_finalized (env : IterEnv) (current : Nat)
    (s : Nat) (envs : List IterEnv) (cancel : IterEnv) (ctxErr : GoError)
    (h : env.notYetFinalized current = true)
    (hall : ∀ e ∈ envs, e.notYetFinalized (uint64 s) = true)
    (hcancel : cancel.ctxDone = some ctxErr) :
    ((iteration env current).emitted = none ∧ (iteration env current).ended = none ∧
        (∀ n, RpcCall.GetBlockHash n ∉ (iteration env current).calls) ∧
        (iteration env current).current = current ∧
        (iteration env current).slept = some retryInterval) ∧
      ((produceFinalizedHeaders s envs).emitted = [] ∧
        (produceFinalizedHeaders s envs).ended = none ∧
        (∀ n, RpcCall.GetBlockHash n ∉ (produceFinalizedHeaders s envs).calls) ∧
        (produceFinalizedHeaders s envs).current = uint64 s) ∧
      ((produceFinalizedHeaders s (envs ++ [cancel])).emitted = [] ∧
        (produceFinalizedHeaders s (envs ++ [cancel])).ended = some (.ret (some ctxErr))) := by
  refine ⟨?_, ?_, ?_⟩
  · obtain ⟨fh, hit⟩ := iteration_notYetFinalized env current h
    rw [hit]
    simp
  · have hrun := produceLoop_notYetFinalized envs (uint64 s) hall []
    simp only [List.append_nil] at hrun
    unfold produceFinalizedHeaders
    refine ⟨hrun.1, hrun.2.1, ?_, hrun.2.2.1⟩
    intro n hn
    have := hrun.2.2.2.2 n hn
    simp [produceLoop] at this
  · have hrun := produceLoop_notYetFinalized envs (uint64 s) hall [cancel]
    have hc : (iteration cancel (uint64 s)).ended = some (.ret (some ctxErr)) ∧
        (iteration cancel (uint64 s)).emitted = none := by
      unfold iteration
      simp [hcancel]
    unfold produceFinalizedHeaders
    rw [hrun.1, hrun.2.1, produceLoop_cons_ended cancel [] (uint64 s) _ hc.1]
    simp [hc.2]

theorem produceFinalizedHeaders_retries_while_not_finalized_witness :
    ((iteration (Sample.passAt 6) 7).emitted = none ∧ (iteration (Sample.passAt 6) 7).ended = none ∧
        (∀ n, RpcCall.GetBlockHash n ∉ (iteration (Sample.passAt 6) 7).calls) ∧
        (iteration (Sample.passAt 6) 7).current = 7 ∧
        (iteration (Sample.passAt 6) 7).slept = some retryInterval) ∧
      (produceFinalizedHeaders 7 [Sample.passAt 5, Sample.passAt 6]).emitted = [] ∧
      (produceFinalizedHeaders 7 [Sample.passAt 5, Sample.passAt 6]).ended = none ∧
      (produceFinalizedHeaders 7 ([Sample.passAt 5, Sample.passAt 6]
          ++ [Sample.passCancelled])).ended
        = some (.ret (some { Error := "context canceled" })) := by
  have h := produceFinalizedHeaders_retries_while_not_finalized (Sample.passAt 6) 7 7
    [Sample.passAt 5, Sample.passAt 6] Sample.passCancelled { Error := "context canceled" }
    (by decide) (by decide) rfl
  exact ⟨h.1, h.2.1.1, h.2.1.2.1, h.2.2.2⟩

/-- C9: in a pass whose target is at or below the finalized height, a block-hash failure whose
message is that of `ErrBlockNotReady` makes the pass end like a not-yet-finalized pass (no
emission, no return, target unchanged, a sleep of the same retry interval); any other block-hash
failure, and any failure to fetch the header, makes the producer return that error without
emitting a header. -/
theorem iteration_block_hash_and_header_errors (env : IterEnv) (current : Nat) (fh : H256)
    (fhdr : Header) (hctx : env.ctxDone = none) (hfh : env.GetFinalizedHead = .ok fh)
    (hhdr : env.GetHeaderOfFinalized fh = .ok fhdr) (hle : current ≤ uint64 fhdr.Number) :
    (∀ e, env.GetBlockHash current = .error e → e.Error = ErrBlockNotReady.Error →
        ((iteration env current).emitted = none ∧ (iteration env current).ended = none ∧
          (iteration env current).current = current ∧
          (iteration env current).slept = some retryInterval) ∧
        ∀ env2 : IterEnv, env2.notYetFinalized current = true →
          (iteration env2 current).emitted = (iteration env current).emitted ∧
          (iteration env2 current).ended = (iteration env current).ended ∧
          (iteration env2 current).current = (iteration env current).current ∧
          (iteration env2 current).slept = (iteration env current).slept) ∧
      (∀ e, env.GetBlockHash current = .error e → e.Error ≠ ErrBlockNotReady.Error →
        (iteration env current).emitted = none ∧
        (iteration env current).ended = some (.ret (some e))) ∧
      (∀ hash e, env.GetBlockHash current = .ok hash → env.GetHeader hash = .error e →
        (iteration env current).emitted = none ∧
        (iteration env current).ended = some (.ret (some e))) := by
  have hgt : ¬ current > uint64 fhdr.Number := Nat.not_lt.mpr hle
  refine ⟨?_, ?_, ?_⟩
  · intro e hbh hm
    have hit : iteration env current =
        { current := current, emitted := none, ended := none, slept := some retryInterval,
          calls := [.GetFinalizedHead, .GetHeader fh, .GetBlockHash current] } := by
      unfold iteration
      simp [hctx, hfh, hhdr, hgt, hbh, hm]
    refine ⟨by rw [hit]; simp, ?_⟩
    intro env2 h2
    obtain ⟨fh2, hit2⟩ := iteration_notYetFinalized env2 current h2
    rw [hit, hit2]
    simp
  · intro e hbh hm
    unfold iteration
    simp [hctx, hfh, hhdr, hgt, hbh, hm]
  · intro hash e hbh hh
    unfold iteration
    simp [hctx, hfh, hhdr, hgt, hbh, hh]

theorem iteration_block_hash_and_header_errors_witness :
    ((iteration (Sample.passHashError 5 ErrBlockNotReady) 3).ended = none ∧
        (iteration (Sample.passHashError 5 ErrBlockNotReady) 3).slept = some retryInterval) ∧
      (iteration (Sample.passHashError 5 { Error := "boom" }) 3).ended
        = some (.ret (some { Error := "boom" })) ∧
      (iteration (Sample.passHeaderError 5 { Error := "gone" }) 3).ended
        = some (.ret (some { Error := "gone" })) := by
  have h1 := (iteration_block_hash_and_header_errors (Sample.passHashError 5 ErrBlockNotReady) 3
    [5] { Number := 5, Digest := [] } rfl rfl rfl (by decide)).1 ErrBlockNotReady rfl rfl
  have h2 := (iteration_block_hash_and_header_errors (Sample.passHashError 5 { Error := "boom" }) 3
    [5] { Number := 5, Digest := [] } rfl rfl rfl (by decide)).2.1 { Error := "boom" } rfl
    (by decide)
  have h3 := (iteration_block_hash_and_header_errors
    (Sample.passHeaderError 5 { Error := "gone" }) 3
    [5] { Number := 5, Digest := [] } rfl rfl rfl (by decide)).2.2 [3] { Error := "gone" } rfl rfl
  exact ⟨⟨h1.1.2.1, h1.1.2.2.2⟩, h2.2, h3.2⟩

end Parachain

/-! ## Theorems: the startup handshake -/

namespace Ethereum

theorem receiveInitParams_not_headerID (ethInit : Option Init)
    (hnot : ∀ p, recvInit ethInit ≠ .headerID p) :
    receiveInitParams ethInit = .err { Error := "invalid init params" } := by
  unfold receiveInitParams
  cases hv : recvInit ethInit with
  | headerID p => exact absurd hv (hnot p)
  | nilValue => simp [assertHeaderID]
  | startingBlocks p => simp [assertHeaderID]
  | other tag => simp [assertHeaderID]

/-- C8: when connecting and sending the starting positions succeed but the value received on
the initialization channel is not a `HeaderID` (a value of another type, the nil value, or
nothing at all because the channel was closed), `Start` returns a non-nil error and starts
neither the listener nor the writer; and when the value is a `HeaderID`, `receiveInitParams`
returns that same `HeaderID` and no error. -/
theorem Start_fails_unless_HeaderID_received (ch : Chain) (env : StartEnv)
    (startingBlocks : Nat × Nat) (hconn : env.Connect = none)
    (hsend : env.queryStartingBlocks = .ok startingBlocks)
    (hnot : ∀ p, recvInit env.ethInit ≠ .headerID p) :
    (∃ e, (Start ch env).1 = .ret (some e)) ∧
      (∀ eff ∈ (Start ch env).2, eff.isStart = false) ∧
      ((ch.listener = true ∨ ch.writer = true) →
        Start ch env = (.ret (some { Error := "invalid init params" }),
          [.connect, .sendInit startingBlocks, .closeSubInit])) ∧
      ∀ headerID : HeaderID, receiveInitParams (some (.headerID (some headerID))) = .ok headerID := by
  have hrecv := receiveInitParams_not_headerID env.ethInit hnot
  refine ⟨?_, ?_, ?_, ?_⟩
  · unfold Start
    by_cases hset : ch.listener = false ∧ ch.writer = false
    · simp [hset]
    · simp [hset, hconn, sendInitParams, hsend, hrecv]
  · unfold Start
    by_cases hset : ch.listener = false ∧ ch.writer = false
    · simp [hset]
    · simp [hset, hconn, sendInitParams, hsend, hrecv, Effect.isStart]
  · intro hset
    have hset2 : ¬ (ch.listener = false ∧ ch.writer = false) := by
      rintro ⟨h1, h2⟩
      rcases hset with h | h
      · rw [h1] at h; cases h
      · rw [h2] at h; cases h
    unfold Start
    simp [hset2, hconn, sendInitParams, hsend, hrecv]
  · intro headerID
    rfl

theorem Start_fails_unless_HeaderID_received_witness :
    (Start Sample.chainBoth (Sample.startEnv none)
        = (.ret (some { Error := "invalid init params" }),
          [.connect, .sendInit (10, 20), .closeSubInit])) ∧
      (Start Sample.chainBoth (Sample.startEnv (some (.startingBlocks (1, 2))))
        = (.ret (some { Error := "invalid init params" }),
          [.connect, .sendInit (10, 20), .closeSubInit])) := by
  have h1 := (Start_fails_unless_HeaderID_received Sample.chainBoth (Sample.startEnv none)
    (10, 20) rfl rfl (by intro p h; simp [recvInit, Sample.startEnv] at h)).2.2.1 (Or.inl rfl)
  have h2 := (Start_fails_unless_HeaderID_received Sample.chainBoth
    (Sample.startEnv (some (.startingBlocks (1, 2)))) (10, 20) rfl rfl
    (by intro p h; simp [recvInit, Sample.startEnv] at h)).2.2.1 (Or.inl rfl)
  exact ⟨h1, h2⟩

end Ethereum

end Relayer
